import Mathlib

/-!
Verification development for the Solana-OrderFlow event pipeline
(listener / risk-engine / storage-writer services).

The definitions below are a shallow embedding of the Rust sources:
  - services/common/src/lib.rs      (schema types, parse_u64_str)
  - services/listener/src/main.rs   (log-line normalization)
  - services/risk-engine/src/main.rs (rules, alert de-duplication)
  - services/storage-writer/src/main.rs (audit insert, offers upsert)
Machine integers are modelled as Nat/Int with explicit range handling
where the code casts or clamps; external effects (Kafka, Postgres,
serde_json) are modelled as explicit state or as function parameters.
-/

namespace OrderFlow

/-- Embeds `EventType` from services/common/src/lib.rs. -/
inductive EventType where
  | OfferCreated
  | OfferFilled
  | OfferCancelled
deriving DecidableEq, Repr

/-- Embeds `format!("\x7b:?\x7d", ev.event_type)` (Rust Debug) for `EventType`. -/
def EventType.debugStr : EventType → String
  | .OfferCreated => "OfferCreated"
  | .OfferFilled => "OfferFilled"
  | .OfferCancelled => "OfferCancelled"

/-- Embeds `NormalizedEvent` from services/common/src/lib.rs.
u64 fields become Nat; `amount_a`/`amount_b` are u64 encoded as strings
in the source and stay strings here. -/
structure NormalizedEvent where
  event_id : String
  event_type : EventType
  cluster : String
  slot : Nat
  signature : String
  program_id : String
  offer_id : String
  maker : String
  taker : Option String
  mint_a : String
  mint_b : String
  amount_a : String
  amount_b : String
  commitment : String
  ts_ingest_ms : Nat
deriving DecidableEq, Repr

/-- Embeds `OnchainLogEvent` from services/common/src/lib.rs. -/
structure OnchainLogEvent where
  event : String
  offer_id : String
  maker : String
  taker : Option String
  mint_a : String
  mint_b : String
  amount_a : Nat
  amount_b : Nat
deriving DecidableEq, Repr

/-- Model of the `details: serde_json::Value` payloads actually built by
risk-engine (the two `json!` literals in main.rs). -/
inductive AlertDetails where
  | freqCancel (window_ms : Nat) (cancel_count : Nat) (threshold : Nat)
  | largeAmount (amount_a : String) (amount_b : String) (threshold : Nat)
      (event_type : String)
deriving DecidableEq, Repr

/-- Embeds `AlertEvent` from services/common/src/lib.rs. -/
structure AlertEvent where
  alert_id : String
  rule_id : String
  severity : String
  maker : String
  offer_id : Option String
  ts_ms : Nat
  details : AlertDetails
deriving DecidableEq, Repr

/-! ### Rust `str::parse::<u64>` (used via `parse_u64_str` and
`ev.amount_a.parse::<u64>()`) -/

/-- Value of a list of ASCII digit characters read left to right. -/
def digitsVal : List Char → Nat :=
  List.foldl (fun acc c => acc * 10 + (c.toNat - '0'.toNat)) 0

/-- Embeds Rust `u64::from_str` on the character list after the optional
sign: at least one character, all ASCII digits, and the value must fit in
64 bits (the checked arithmetic in `from_str` overflows exactly when the
final value would not fit, since the accumulator grows monotonically). -/
def parseDigits (l : List Char) : Option Nat :=
  if l = [] then none
  else if l.all Char.isDigit then
    let v := digitsVal l
    if v < 2 ^ 64 then some v else none
  else none

/-- Embeds Rust `s.parse::<u64>().ok()`, i.e. `parse_u64_str` from
services/common/src/lib.rs. Rust u64 parsing accepts an optional leading
plus sign followed by one or more ASCII digits, rejecting overflow. -/
def parseU64 (s : String) : Option Nat :=
  match s.data with
  | '+' :: rest => parseDigits rest
  | l => parseDigits l

/-! ### storage-writer: `handle_event` (services/storage-writer/src/main.rs) -/

/-- A row of the `events` audit table as written by `handle_event` step 1.
The `payload_json` column stores `serde_json::to_string(ev)`; JSON
serialization of `NormalizedEvent` is injective and deterministic, so the
payload is modelled by the event value itself. -/
structure AuditRow where
  event_id : String
  event_type : String
  signature : String
  slot : Int
  offer_id : String
  payload : NormalizedEvent
deriving DecidableEq, Repr

/-- A row of the `offers` projection table. `created_slot` is kept
optional to mirror the `coalesce(offers.created_slot, ...)` in the SQL;
every insert performed by this code sets it. `updated_at` records the
`now()` timestamp of the last applied write. -/
structure OfferRow where
  offer_id : String
  status : String
  maker : String
  taker : Option String
  mint_a : String
  mint_b : String
  amount_a : Int
  amount_b : Int
  created_slot : Option Int
  updated_slot : Int
  updated_at : Nat
deriving DecidableEq, Repr

/-- Embeds the Rust cast `ev.slot as i64` (wrap of a u64, two-complement,
into a signed 64-bit integer). -/
def i64OfU64 (n : Nat) : Int :=
  if n < 2 ^ 63 then (n : Int) else (n : Int) - 2 ^ 64

/-- Embeds the amount conversion in `handle_event`:
`ev.amount_a.parse::<u64>().unwrap_or(0).min(i64::MAX as u64) as i64`. -/
def storedAmount (s : String) : Int :=
  (min ((parseU64 s).getD 0) (2 ^ 63 - 1) : Nat)

/-- Embeds the `(status, taker)` derivation in `handle_event` step 2. -/
def statusTaker (ev : NormalizedEvent) : String × Option String :=
  match ev.event_type with
  | .OfferCreated => ("created", none)
  | .OfferFilled => ("filled", ev.taker)
  | .OfferCancelled => ("cancelled", none)

/-- Embeds the audit-table insert of `handle_event` step 1:
`insert into events ... on conflict (event_id) do nothing`. -/
def insertAudit (tbl : List AuditRow) (ev : NormalizedEvent) : List AuditRow :=
  if tbl.any (fun r => r.event_id = ev.event_id) then tbl
  else tbl ++ [{ event_id := ev.event_id
                 event_type := ev.event_type.debugStr
                 signature := ev.signature
                 slot := i64OfU64 ev.slot
                 offer_id := ev.offer_id
                 payload := ev }]

/-- Embeds the `offers` upsert of `handle_event` step 2 for the row keyed
by `ev.offer_id`: insert when absent; on conflict, run the update list
only when `offers.updated_slot <= excluded.updated_slot`, preserving
`created_slot` via coalesce and stamping `updated_at = now()`. -/
def applyOffer (old : Option OfferRow) (ev : NormalizedEvent) (now : Nat) :
    OfferRow :=
  let st := statusTaker ev
  let slotI := i64OfU64 ev.slot
  let fresh : OfferRow :=
    { offer_id := ev.offer_id
      status := st.1
      maker := ev.maker
      taker := st.2
      mint_a := ev.mint_a
      mint_b := ev.mint_b
      amount_a := storedAmount ev.amount_a
      amount_b := storedAmount ev.amount_b
      created_slot := some slotI
      updated_slot := slotI
      updated_at := now }
  match old with
  | none => fresh
  | some r =>
      if r.updated_slot ≤ slotI then
        { fresh with
            created_slot := match r.created_slot with
              | some c => some c
              | none => some slotI }
      else r

/-- Association-list lookup modelling the primary-key fetch on `offers`. -/
def lookupOffer (tbl : List (String × OfferRow)) (k : String) :
    Option OfferRow :=
  (tbl.find? (fun p => p.1 = k)).map Prod.snd

/-- Store the upserted row back under its key, leaving other keys alone. -/
def storeOffer (tbl : List (String × OfferRow)) (k : String) (row : OfferRow) :
    List (String × OfferRow) :=
  if tbl.any (fun p => p.1 = k) then
    tbl.map (fun p => if p.1 = k then (k, row) else p)
  else tbl ++ [(k, row)]

/-- The persistent database state touched by storage-writer. -/
structure Db where
  events : List AuditRow
  offers : List (String × OfferRow)
deriving DecidableEq, Repr

/-- Embeds `handle_event` (services/storage-writer/src/main.rs, lines
117-191): the audit insert followed by the guarded offers upsert, with
`now` the database timestamp used for `updated_at`. -/
def handleEvent (db : Db) (ev : NormalizedEvent) (now : Nat) : Db :=
  { events := insertAudit db.events ev
    offers := storeOffer db.offers ev.offer_id
      (applyOffer (lookupOffer db.offers ev.offer_id) ev now) }

/-- Fold `handle_event` over a delivery sequence (each event paired with
the wall-clock instant of its write). -/
def handleAll (db : Db) : List (NormalizedEvent × Nat) → Db
  | [] => db
  | (ev, now) :: rest => handleAll (handleEvent db ev now) rest

/-! ### listener: log normalization (services/listener/src/main.rs) -/

/-- Does `p` occur at the head of `l`? (helper for substring search). -/
def headMatches : List Char → List Char → Bool
  | [], _ => true
  | _ :: _, [] => false
  | p :: ps, c :: cs => p = c && headMatches ps cs

/-- Embeds Rust `str::contains(pat)`: `pat` occurs as a contiguous
substring of the haystack. -/
def containsSub (hay pat : List Char) : Bool :=
  headMatches pat hay ||
    match hay with
    | [] => false
    | _ :: rest => containsSub rest pat

/-- Embeds Rust `line.strip_prefix(p)`: the remainder of `l` after an
exact match of `p` at its head, if any. -/
def stripHead : List Char → List Char → Option (List Char)
  | [], rest => some rest
  | _ :: _, [] => none
  | p :: ps, c :: cs => if p = c then stripHead ps cs else none

/-- The constant `PREFIX` = `"Program log: "` from the listener. -/
def programLogLead : List Char := "Program log: ".data

/-- The substring probe applied before JSON parsing in the listener. -/
def eventKeyProbe : List Char := "\"event\":".data

/-- Static configuration of one listener run (the `Args` fields used when
building events). -/
structure ListenerCfg where
  cluster : String
  program_id : String
  commitment : String
deriving Repr

/-- Embeds `format!("\x7b\x7d:\x7b\x7d:\x7b\x7d", sig, instruction_index, log_index)`
with the constant `instruction_index = 0u32`. -/
def eventIdOf (sig : String) (logIndex : Nat) : String :=
  sig ++ ":" ++ toString (0 : Nat) ++ ":" ++ toString logIndex

/-- Embeds the match mapping `parsed.event` to `EventType`; `none` means
the `_ => continue` arm (unrecognized kind). -/
def mapEventKind : String → Option EventType
  | "OfferCreated" => some EventType.OfferCreated
  | "OfferFilled" => some EventType.OfferFilled
  | "OfferCancelled" => some EventType.OfferCancelled
  | _ => none

/-- Embeds the per-log-line body of the listener loop (main.rs lines
87-127): strip the `Program log: ` lead, probe for `"event":`, parse the
JSON (parsing delegated to the external `serde_json`, passed in as
`parse`), map the kind, and build the `NormalizedEvent`. Returns `none`
exactly when the line is skipped by one of the `continue` arms. -/
def processLine (parse : String → Option OnchainLogEvent) (cfg : ListenerCfg)
    (now : Nat) (sig : String) (slot : Nat) (logIndex : Nat) (line : String) :
    Option NormalizedEvent :=
  match stripHead programLogLead line.data with
  | none => none
  | some jsonChars =>
      if containsSub jsonChars eventKeyProbe then
        match parse (String.mk jsonChars) with
        | none => none
        | some parsed =>
            match mapEventKind parsed.event with
            | none => none
            | some ety =>
                some { event_id := eventIdOf sig logIndex
                       event_type := ety
                       cluster := cfg.cluster
                       slot := slot
                       signature := sig
                       program_id := cfg.program_id
                       offer_id := parsed.offer_id
                       maker := parsed.maker
                       taker := parsed.taker
                       mint_a := parsed.mint_a
                       mint_b := parsed.mint_b
                       amount_a := toString parsed.amount_a
                       amount_b := toString parsed.amount_b
                       commitment := cfg.commitment
                       ts_ingest_ms := now }
      else none

/-- One inbound `logsSubscribe` notification: context slot, transaction
signature, optional transaction error, and the ordered log lines. -/
structure LogsNotification where
  slot : Nat
  signature : String
  err : Option String
  logs : List String
deriving Repr

/-- Embeds the per-notification body of the listener loop (main.rs lines
78-138): failed transactions (`value.err.is_some()`) are skipped whole;
otherwise each log line is processed with its zero-based index and the
produced events are published in order. -/
def processNotification (parse : String → Option OnchainLogEvent)
    (cfg : ListenerCfg) (now : Nat) (resp : LogsNotification) :
    List NormalizedEvent :=
  if resp.err.isSome then []
  else
    resp.logs.enum.filterMap fun p =>
      processLine parse cfg now resp.signature resp.slot p.1 p.2

/-! ### risk-engine (services/risk-engine/src/main.rs) -/

/-- Rule thresholds from the risk-engine `Args` (defaults 5, 10 min,
1e9). `window_ms` is `cancel_window_min * 60_000` as computed in main. -/
structure RiskCfg where
  cancel_threshold : Nat
  window_ms : Nat
  large_amount_threshold : Nat
deriving Repr

/-- Mutable state of the risk-engine loop: per-maker cancellation deques
(`HashMap<String, VecDeque<u64>>`, modelled as an association list with
deque front first), the in-memory de-duplication set of emitted alert
ids, and the list of alerts actually published to the alerts topic. -/
structure RiskState where
  cancels : List (String × List Nat)
  emitted : List String
  published : List AlertEvent
deriving Repr

/-- Embeds `emit_alert` (main.rs lines 173-192): a freshly seen
`alert_id` is recorded and the alert is published; an id already in the
set makes the call a no-op. -/
def emitAlert (st : RiskState) (alert : AlertEvent) : RiskState :=
  if st.emitted.contains alert.alert_id then st
  else { st with emitted := alert.alert_id :: st.emitted
                 published := st.published ++ [alert] }

/-- Embeds `large_amount_rule` (main.rs lines 151-171). `now` stands for
the `now_ms()` call stamping `ts_ms`. -/
def largeAmountRule (ev : NormalizedEvent) (threshold : Nat) (now : Nat) :
    Option AlertEvent :=
  let a := (parseU64 ev.amount_a).getD 0
  let b := (parseU64 ev.amount_b).getD 0
  if a < threshold ∧ b < threshold then none
  else
    some { alert_id := "large_amount:" ++ ev.offer_id ++ ":" ++ ev.signature
             ++ ":" ++ toString ev.slot
           rule_id := "large_amount"
           severity := "high"
           maker := ev.maker
           offer_id := some ev.offer_id
           ts_ms := now
           details := AlertDetails.largeAmount ev.amount_a ev.amount_b
             threshold ev.event_type.debugStr }

/-- Embeds the front-eviction `while let` loop over a maker deque:
entries whose age `now.saturating_sub(front)` exceeds the window are
popped from the front; Nat subtraction is Rust saturating_sub. -/
def evictFront (now window : Nat) : List Nat → List Nat
  | [] => []
  | f :: rest => if now - f > window then evictFront now window rest
      else f :: rest

/-- Association-list read of a maker deque (`cancels.entry(..).or_default()`). -/
def getDeque (m : List (String × List Nat)) (k : String) : List Nat :=
  ((m.find? (fun p => p.1 = k)).map Prod.snd).getD []

/-- Association-list write of a maker deque. -/
def putDeque (m : List (String × List Nat)) (k : String) (q : List Nat) :
    List (String × List Nat) :=
  if m.any (fun p => p.1 = k) then
    m.map (fun p => if p.1 = k then (k, q) else p)
  else m ++ [(k, q)]

/-- Embeds rule 2, frequent cancel (main.rs lines 111-141), for one
event observed at wall-clock `now`: push `now` onto the maker deque,
evict stale fronts, and when the deque length meets the threshold emit a
`freq_cancel` alert anchored at the deque front. Non-Cancelled events
leave the state untouched (the surrounding `if`). -/
def freqCancelStep (cfg : RiskCfg) (st : RiskState) (ev : NormalizedEvent)
    (now : Nat) : RiskState :=
  if ev.event_type = EventType.OfferCancelled then
    let q := evictFront now cfg.window_ms (getDeque st.cancels ev.maker ++ [now])
    let st' := { st with cancels := putDeque st.cancels ev.maker q }
    if q.length ≥ cfg.cancel_threshold then
      let windowStart := (q.head?).getD now
      let alert : AlertEvent :=
        { alert_id := "freq_cancel:" ++ ev.maker ++ ":" ++ toString windowStart
            ++ ":" ++ toString cfg.cancel_threshold
          rule_id := "freq_cancel"
          severity := "medium"
          maker := ev.maker
          offer_id := some ev.offer_id
          ts_ms := now
          details := AlertDetails.freqCancel cfg.window_ms q.length
            cfg.cancel_threshold }
      emitAlert st' alert
    else st'
  else st

/-- Embeds the rule-1 dispatch in the risk-engine loop (main.rs lines
105-108): evaluate `large_amount_rule` and feed any alert through
`emit_alert`. -/
def largeAmountStep (cfg : RiskCfg) (st : RiskState) (ev : NormalizedEvent)
    (now : Nat) : RiskState :=
  match largeAmountRule ev cfg.large_amount_threshold now with
  | none => st
  | some alert => emitAlert st alert

/-- Embeds the per-event body of the risk-engine loop: rule 1 (large
amount) then rule 2 (frequent cancel), sharing the de-duplication set.
The single `now_ms()` reading of the loop iteration serves both rules. -/
def riskStep (cfg : RiskCfg) (st : RiskState) (ev : NormalizedEvent)
    (now : Nat) : RiskState :=
  freqCancelStep cfg (largeAmountStep cfg st ev now) ev now

/-- Fold the risk-engine loop over a run of events with their observation
instants. -/
def runRisk (cfg : RiskCfg) (st : RiskState) :
    List (NormalizedEvent × Nat) → RiskState
  | [] => st
  | (ev, now) :: rest => runRisk cfg (riskStep cfg st ev now) rest

/-! ### storage-writer consumer loop (services/storage-writer/src/main.rs
lines 89-110): offset-commit decisions -/

/-- Outcome of handling one Kafka message: whether `handle_event` ran
successfully, and whether the consumption offset was committed. -/
structure WriterStep where
  wrote : Bool
  committed : Bool
deriving DecidableEq, Repr

/-- Embeds the message-handling branch of the storage-writer loop:
an unreadable payload or a JSON decode failure commits the offset and
moves on; a successful decode runs `handle_event`, committing only when
the write succeeds. `decode` stands for `serde_json::from_str` and
`writeOk` for the success of the database writes. -/
def stepWriter (decode : String → Option NormalizedEvent)
    (writeOk : NormalizedEvent → Bool) (payload : Option String) :
    WriterStep :=
  match payload with
  | none => { wrote := false, committed := true }
  | some p =>
      match decode p with
      | none => { wrote := false, committed := true }
      | some ev =>
          if writeOk ev then { wrote := true, committed := true }
          else { wrote := false, committed := false }

/-! ### Claim theorems -/

/-- Claim C10: the projection amounts are parsed as u64 with unparsable
strings mapped to 0, then clamped to at most 2^63 - 1 before being stored
in a signed 64-bit column; an amount above 2^63 - 1 is stored as
2^63 - 1, not its exact value. -/
theorem C10_amount_clamped (s : String) :
    (parseU64 s = none → storedAmount s = 0) ∧
    (∀ v, parseU64 s = some v → storedAmount s = ((min v (2 ^ 63 - 1) : Nat) : Int)) ∧
    (∀ v, parseU64 s = some v → 2 ^ 63 - 1 < v → storedAmount s = 2 ^ 63 - 1) := by
  refine ⟨fun h => ?_, fun v h => ?_, fun v h hv => ?_⟩
  · simp [storedAmount, h]
  · simp [storedAmount, h]
  · simp only [storedAmount, h, Option.getD_some]
    rw [Nat.min_eq_right (Nat.le_of_lt hv)]
    norm_num

theorem C10_amount_clamped_witness :
    parseU64 "18446744073709551615" = some 18446744073709551615 ∧
    2 ^ 63 - 1 < 18446744073709551615 ∧
    storedAmount "18446744073709551615" = 2 ^ 63 - 1 :=
  ⟨by decide, by decide,
    (C10_amount_clamped "18446744073709551615").2.2 18446744073709551615
      (by decide) (by decide)⟩

/-- Claim C6: in the storage-writer loop, a database write failure leaves
the offset uncommitted (the event will be redelivered), while a decode
failure commits the offset and processing continues; a successful decode
and write also commits. -/
theorem C6_commit_semantics (decode : String → Option NormalizedEvent)
    (writeOk : NormalizedEvent → Bool) (p : String) :
    (decode p = none →
      stepWriter decode writeOk (some p) = { wrote := false, committed := true }) ∧
    (∀ ev, decode p = some ev → writeOk ev = false →
      stepWriter decode writeOk (some p) = { wrote := false, committed := false }) ∧
    (∀ ev, decode p = some ev → writeOk ev = true →
      stepWriter decode writeOk (some p) = { wrote := true, committed := true }) := by
  refine ⟨fun h => ?_, fun ev h hw => ?_, fun ev h hw => ?_⟩
  · simp [stepWriter, h]
  · simp [stepWriter, h, hw]
  · simp [stepWriter, h, hw]

/-! Sample values used by witnesses. -/

/-- A well-formed on-chain log payload, as the escrow program emits. -/
def sampleLogEvent : OnchainLogEvent :=
  { event := "OfferCreated", offer_id := "42", maker := "m", taker := none
    mint_a := "A", mint_b := "B", amount_a := 1, amount_b := 2 }

/-- A stand-in for `serde_json::from_str::<OnchainLogEvent>` that accepts
every line as `sampleLogEvent`. -/
def sampleParse : String → Option OnchainLogEvent := fun _ => some sampleLogEvent

/-- Listener configuration used in witnesses. -/
def sampleCfg : ListenerCfg :=
  { cluster := "localnet", program_id := "prog", commitment := "finalized" }

/-- A log line as the program produces it (`msg!` output). -/
def sampleLine : String := "Program log: \x7b\"event\":\"OfferCreated\"\x7d"

/-- The normalized event the listener produces from `sampleLine` via
`sampleParse` at signature S, slot 5, log index 1, ingest time 0. -/
def sampleNorm : NormalizedEvent :=
  { event_id := "S:0:1", event_type := .OfferCreated, cluster := "localnet"
    slot := 5, signature := "S", program_id := "prog", offer_id := "42"
    maker := "m", taker := none, mint_a := "A", mint_b := "B"
    amount_a := "1", amount_b := "2", commitment := "finalized"
    ts_ingest_ms := 0 }

/-- A second on-chain payload with a different kind and fields. -/
def otherLogEvent : OnchainLogEvent :=
  { event := "OfferFilled", offer_id := "43", maker := "m2"
    taker := some "tk", mint_a := "C", mint_b := "D"
    amount_a := 3, amount_b := 4 }

/-- A second stand-in JSON parser. -/
def otherParse : String → Option OnchainLogEvent := fun _ => some otherLogEvent

/-- A second listener configuration. -/
def otherCfg : ListenerCfg :=
  { cluster := "devnet", program_id := "prog2", commitment := "confirmed" }

/-- The normalized event from `otherParse` at signature S, slot 6,
log index 1, ingest time 9. -/
def otherNorm : NormalizedEvent :=
  { event_id := "S:0:1", event_type := .OfferFilled, cluster := "devnet"
    slot := 6, signature := "S", program_id := "prog2", offer_id := "43"
    maker := "m2", taker := some "tk", mint_a := "C", mint_b := "D"
    amount_a := "3", amount_b := "4", commitment := "confirmed"
    ts_ingest_ms := 9 }

/-- Claim C7: the listener publishes an event for a line only when the
line carries the `Program log: ` lead, its remainder parses as an
on-chain log event, and the parsed kind is one of the three recognized
kinds; a missing lead, a parse failure, or an unrecognized kind each make
the line be skipped silently (no event, no error). -/
theorem C7_line_filtering (parse : String → Option OnchainLogEvent)
    (cfg : ListenerCfg) (now : Nat) (sig : String) (slot li : Nat)
    (line : String) :
    (∀ ev, processLine parse cfg now sig slot li line = some ev →
      ∃ json parsed, stripHead programLogLead line.data = some json ∧
        parse (String.mk json) = some parsed ∧
        (mapEventKind parsed.event).isSome = true) ∧
    (stripHead programLogLead line.data = none →
      processLine parse cfg now sig slot li line = none) ∧
    (∀ json, stripHead programLogLead line.data = some json →
      parse (String.mk json) = none →
      processLine parse cfg now sig slot li line = none) ∧
    (∀ json parsed, stripHead programLogLead line.data = some json →
      parse (String.mk json) = some parsed →
      mapEventKind parsed.event = none →
      processLine parse cfg now sig slot li line = none) := by
  refine ⟨fun ev h => ?_, fun h => ?_, fun json hs hp => ?_,
    fun json parsed hs hp hk => ?_⟩
  · unfold processLine at h
    cases hs : stripHead programLogLead line.data <;> rw [hs] at h
    · exact Option.noConfusion h
    · rename_i json
      dsimp only at h
      by_cases hc : containsSub json eventKeyProbe = true
      · rw [if_pos hc] at h
        cases hp : parse (String.mk json) <;> rw [hp] at h
        · exact Option.noConfusion h
        · rename_i parsed
          dsimp only at h
          cases hk : mapEventKind parsed.event <;> rw [hk] at h
          · exact Option.noConfusion h
          · exact ⟨json, parsed, rfl, hp, by rw [hk]; rfl⟩
      · rw [if_neg hc] at h
        exact Option.noConfusion h
  · simp [processLine, h]
  · rw [processLine, hs]
    dsimp only
    rw [hp]
    split <;> rfl
  · rw [processLine, hs]
    dsimp only
    rw [hp]
    dsimp only
    rw [hk]
    split <;> rfl

theorem C7_line_filtering_witness :
    stripHead programLogLead "other line".data = none ∧
    processLine sampleParse sampleCfg 0 "S" 5 1 "other line" = none ∧
    processLine (fun _ => none) sampleCfg 0 "S" 5 1 sampleLine = none ∧
    processLine (fun _ => some { sampleLogEvent with event := "Weird" })
      sampleCfg 0 "S" 5 1 sampleLine = none :=
  ⟨by decide,
   (C7_line_filtering sampleParse sampleCfg 0 "S" 5 1 "other line").2.1
     (by decide),
   (C7_line_filtering (fun _ => none) sampleCfg 0 "S" 5 1 sampleLine).2.2.1
     "\x7b\"event\":\"OfferCreated\"\x7d".data (by decide) rfl,
   (C7_line_filtering (fun _ => some { sampleLogEvent with event := "Weird" })
       sampleCfg 0 "S" 5 1 sampleLine).2.2.2
     "\x7b\"event\":\"OfferCreated\"\x7d".data
     { sampleLogEvent with event := "Weird" } (by decide) rfl (by decide)⟩

/-- Helper: any event the listener produces for signature `sig` at log
index `li` carries `event_id = eventIdOf sig li`. -/
theorem processLine_event_id (parse : String → Option OnchainLogEvent)
    (cfg : ListenerCfg) (now : Nat) (sig : String) (slot li : Nat)
    (line : String) (ev : NormalizedEvent)
    (h : processLine parse cfg now sig slot li line = some ev) :
    ev.event_id = eventIdOf sig li := by
  unfold processLine at h
  cases hs : stripHead programLogLead line.data <;> rw [hs] at h
  · exact Option.noConfusion h
  case some json =>
    dsimp only at h
    by_cases hc : containsSub json eventKeyProbe = true
    · rw [if_pos hc] at h
      cases hp : parse (String.mk json) <;> rw [hp] at h
      · exact Option.noConfusion h
      · rename_i parsed
        dsimp only at h
        cases hk : mapEventKind parsed.event <;> rw [hk] at h
        · exact Option.noConfusion h
        · rename_i ety
          dsimp only at h
          injection h with h2
          rw [← h2]
    · rw [if_neg hc] at h
      exact Option.noConfusion h

/-- Claim C8: the produced `event_id` is a deterministic function of the
transaction signature and the zero-based log-line index alone (with the
constant instruction index 0): any two runs — different parses,
configurations, slots, lines or ingest times — that produce events for
the same (signature, log-index) pair produce the identical `event_id`,
namely `sig ++ ":0:" ++ li`. -/
theorem C8_event_id_deterministic
    (parse parse' : String → Option OnchainLogEvent) (cfg cfg' : ListenerCfg)
    (now now' : Nat) (sig : String) (slot slot' li : Nat)
    (line line' : String) (ev ev' : NormalizedEvent)
    (h : processLine parse cfg now sig slot li line = some ev)
    (h' : processLine parse' cfg' now' sig slot' li line' = some ev') :
    ev.event_id = ev'.event_id ∧ ev.event_id = eventIdOf sig li := by
  have e1 := processLine_event_id parse cfg now sig slot li line ev h
  have e2 := processLine_event_id parse' cfg' now' sig slot' li line' ev' h'
  exact ⟨e1.trans e2.symm, e1⟩

theorem C8_event_id_deterministic_witness :
    processLine sampleParse sampleCfg 0 "S" 5 1 sampleLine = some sampleNorm ∧
    processLine otherParse otherCfg 9 "S" 6 1 sampleLine = some otherNorm ∧
    sampleNorm.event_id = otherNorm.event_id ∧
    sampleNorm.event_id = eventIdOf "S" 1 :=
  ⟨by decide, by decide,
   (C8_event_id_deterministic sampleParse otherParse sampleCfg otherCfg 0 9
      "S" 5 6 1 sampleLine sampleLine sampleNorm otherNorm
      (by decide) (by decide)).1,
   (C8_event_id_deterministic sampleParse otherParse sampleCfg otherCfg 0 9
      "S" 5 6 1 sampleLine sampleLine sampleNorm otherNorm
      (by decide) (by decide)).2⟩

/-- Claim C9: a notification whose transaction carries an error is
skipped whole — the listener emits no event for it, even when its log
lines are well formed. -/
theorem C9_failed_tx_skipped (parse : String → Option OnchainLogEvent)
    (cfg : ListenerCfg) (now : Nat) (resp : LogsNotification)
    (h : resp.err.isSome = true) :
    processNotification parse cfg now resp = [] := by
  simp [processNotification, h]

/-- A failed-transaction notification holding a well-formed event line. -/
def failedNotif : LogsNotification :=
  { slot := 5, signature := "S", err := some "InstructionError"
    logs := [sampleLine] }

theorem C9_failed_tx_skipped_witness :
    failedNotif.err.isSome = true ∧
    processNotification sampleParse sampleCfg 0 failedNotif = [] ∧
    processNotification sampleParse sampleCfg 0
      { failedNotif with err := none } ≠ [] :=
  ⟨rfl, C9_failed_tx_skipped sampleParse sampleCfg 0 failedNotif rfl,
   by decide⟩

/-! Scenario events for the projection claims (offer 42). -/

/-- Created event for offer 42 at ledger slot 10. -/
def evCreated10 : NormalizedEvent :=
  { event_id := "sig10:0:0", event_type := .OfferCreated, cluster := "localnet"
    slot := 10, signature := "sig10", program_id := "prog", offer_id := "42"
    maker := "m", taker := none, mint_a := "A", mint_b := "B"
    amount_a := "100", amount_b := "200", commitment := "finalized"
    ts_ingest_ms := 0 }

/-- Filled event for offer 42 at ledger slot 15. -/
def evFilled15 : NormalizedEvent :=
  { evCreated10 with
    event_id := "sig15:0:0"
    event_type := .OfferFilled
    slot := 15
    signature := "sig15"
    taker := some "tk" }

/-- Filled event for offer 42 at the same ledger slot 10 (a second
transaction in the same slot). -/
def evFilled10 : NormalizedEvent :=
  { evCreated10 with
    event_id := "sig10b:0:0"
    event_type := .OfferFilled
    slot := 10
    signature := "sig10b"
    taker := some "tk" }

/-- Filled event for offer 42 at the earlier ledger slot 5. -/
def evFilled5 : NormalizedEvent :=
  { evCreated10 with
    event_id := "sig5:0:0"
    event_type := .OfferFilled
    slot := 5
    signature := "sig5"
    taker := some "tk" }

/-- Claim C1 counterexample: the guard in the upsert is
`offers.updated_slot <= excluded.updated_slot`, so an incoming event
whose sequence EQUALS the stored `updated_sequence` does overwrite the
row: starting from the row written by Created(seq=10), a Filled(seq=10)
write changes the row (status becomes filled), although its sequence is
not greater than the stored `updated_sequence`. -/
theorem C1_counterexample :
    (applyOffer none evCreated10 0).updated_slot = 10 ∧
    i64OfU64 evFilled10.slot ≤ (applyOffer none evCreated10 0).updated_slot ∧
    applyOffer (some (applyOffer none evCreated10 0)) evFilled10 1 ≠
      applyOffer none evCreated10 0 ∧
    (applyOffer (some (applyOffer none evCreated10 0)) evFilled10 1).status =
      "filled" := by
  decide

/-- Claim C1 (amended): a write triggered by an incoming event whose
sequence is STRICTLY less than the stored `updated_sequence` of the row
leaves the row completely unchanged; an event with sequence equal to the
stored `updated_sequence` overwrites the row. -/
theorem C1_monotonic_guard (r : OfferRow) (ev : NormalizedEvent) (now : Nat)
    (h : i64OfU64 ev.slot < r.updated_slot) :
    applyOffer (some r) ev now = r := by
  simp only [applyOffer]
  rw [if_neg (not_le.mpr h)]

theorem C1_monotonic_guard_witness :
    i64OfU64 evFilled5.slot < (applyOffer none evCreated10 0).updated_slot ∧
    applyOffer (some (applyOffer none evCreated10 0)) evFilled5 99 =
      applyOffer none evCreated10 0 :=
  ⟨by decide,
   C1_monotonic_guard (applyOffer none evCreated10 0) evFilled5 99 (by decide)⟩

/-- Claim C2: applying Created(seq=10), a redelivered duplicate
Created(seq=10), then Filled(seq=15) to an empty projection yields a row
for offer 42 with status filled, created_sequence 10 and
updated_sequence 15; a late redelivery of Created(seq=10) after
Filled(seq=15) leaves the whole database unchanged (status stays
filled). -/
theorem C2_out_of_order_scenario :
    ((lookupOffer (handleAll { events := [], offers := [] }
        [(evCreated10, 0), (evCreated10, 1), (evFilled15, 2)]).offers
        "42").map (fun r => (r.status, r.created_slot, r.updated_slot)) =
      some ("filled", some 10, 15)) ∧
    handleAll { events := [], offers := [] }
        [(evCreated10, 0), (evCreated10, 1), (evFilled15, 2), (evCreated10, 2)] =
      handleAll { events := [], offers := [] }
        [(evCreated10, 0), (evCreated10, 1), (evFilled15, 2)] := by
  decide

/-- Helper: the audit component of `handleAll` is the fold of the audit
insert over the delivered events. -/
theorem handleAll_events (db : Db) (l : List (NormalizedEvent × Nat)) :
    (handleAll db l).events = List.foldl insertAudit db.events (l.map Prod.fst) := by
  induction l generalizing db with
  | nil => rfl
  | cons p rest ih =>
      cases p with
      | mk ev now => simp [handleAll, handleEvent, ih]

/-- Helper: inserting an event whose id is already in the audit table is
a no-op. -/
theorem insertAudit_mem (tbl : List AuditRow) (ev : NormalizedEvent)
    (h : ∃ r ∈ tbl, r.event_id = ev.event_id) :
    insertAudit tbl ev = tbl := by
  rw [insertAudit, if_pos]
  rw [List.any_eq_true]
  rcases h with ⟨r, hr, he⟩
  exact ⟨r, hr, by simp [he]⟩

/-- Helper: once a row with id `eid` is present, a run of deliveries all
carrying id `eid` leaves the audit table untouched. -/
theorem foldl_insertAudit_absorbed (eid : String) (tbl : List AuditRow)
    (evs : List NormalizedEvent)
    (hmem : ∃ r ∈ tbl, r.event_id = eid)
    (hall : ∀ ev ∈ evs, ev.event_id = eid) :
    List.foldl insertAudit tbl evs = tbl := by
  induction evs with
  | nil => rfl
  | cons e rest ih =>
      have he : e.event_id = eid := hall e (by simp)
      rw [List.foldl_cons, insertAudit_mem tbl e (by rw [he]; exact hmem)]
      exact ih fun ev hv => hall ev (by simp [hv])

/-- Claim C3: for any nonempty run of deliveries all carrying the same
`event_id`, in any order, starting from an audit table with no row for
that id, the final audit table contains exactly one row for that id:
the first insert creates it and every later one is absorbed. -/
theorem C3_audit_idempotent (eid : String) (db : Db)
    (deliveries : List (NormalizedEvent × Nat))
    (hne : deliveries ≠ [])
    (hall : ∀ p ∈ deliveries, (Prod.fst p).event_id = eid)
    (h0 : db.events.countP (fun r => r.event_id = eid) = 0) :
    ((handleAll db deliveries).events.countP (fun r => r.event_id = eid)) = 1 := by
  rw [handleAll_events]
  obtain ⟨p, rest, rfl⟩ : ∃ p rest, deliveries = p :: rest := by
    cases deliveries with
    | nil => exact absurd rfl hne
    | cons p rest => exact ⟨p, rest, rfl⟩
  cases p with
  | mk ev now =>
      have hev : ev.event_id = eid := hall (ev, now) (by simp)
      have hnone : ∀ a ∈ db.events, ¬(a.event_id = eid) :=
        by simpa using List.countP_eq_zero.mp h0
      have hnot : ¬(db.events.any (fun r => r.event_id = ev.event_id) = true) := by
        rw [List.any_eq_true]
        rintro ⟨r, hr, he⟩
        exact hnone r hr (by simpa [hev] using he)
      rw [List.map_cons, List.foldl_cons, insertAudit, if_neg hnot]
      rw [foldl_insertAudit_absorbed eid _ _
        ⟨{ event_id := ev.event_id, event_type := ev.event_type.debugStr
           signature := ev.signature, slot := i64OfU64 ev.slot
           offer_id := ev.offer_id, payload := ev },
          by simp, by simpa using hev⟩
        (fun e hv => by
          obtain ⟨q, hq, rfl⟩ := List.mem_map.mp hv
          exact hall q (List.mem_cons_of_mem _ hq))]
      · rw [List.countP_append, h0]
        simp [hev]

theorem C3_audit_idempotent_witness :
    ([(evCreated10, 0), (evCreated10, 5), (evCreated10, 3)] ≠
      ([] : List (NormalizedEvent × Nat))) ∧
    ((handleAll { events := [], offers := [] }
        [(evCreated10, 0), (evCreated10, 5), (evCreated10, 3)]).events.countP
      (fun r => r.event_id = "sig10:0:0")) = 1 :=
  ⟨by decide,
   C3_audit_idempotent "sig10:0:0" { events := [], offers := [] }
     [(evCreated10, 0), (evCreated10, 5), (evCreated10, 3)]
     (by decide) (by decide) (by decide)⟩

/-- Claim C5: the risk engine produces a `large_amount` alert for an
event exactly when `amount_a` or `amount_b` (parsed as u64, unparsable
strings treated as 0) reaches the threshold; the alert id is determined
by (offer_id, signature, slot) alone; and processing the same event a
second time publishes nothing new once the de-duplication set holds the
id. -/
theorem C5_large_amount (ev : NormalizedEvent) (cfg : RiskCfg)
    (now now' : Nat) (st : RiskState) :
    ((largeAmountRule ev cfg.large_amount_threshold now).isSome ↔
      cfg.large_amount_threshold ≤ (parseU64 ev.amount_a).getD 0 ∨
      cfg.large_amount_threshold ≤ (parseU64 ev.amount_b).getD 0) ∧
    (∀ al, largeAmountRule ev cfg.large_amount_threshold now = some al →
      al.alert_id = "large_amount:" ++ ev.offer_id ++ ":" ++ ev.signature
        ++ ":" ++ toString ev.slot) ∧
    ((largeAmountStep cfg (largeAmountStep cfg st ev now) ev now').published =
      (largeAmountStep cfg st ev now).published) := by
  refine ⟨?_, fun al h => ?_, ?_⟩
  · rw [largeAmountRule]
    by_cases ha : (parseU64 ev.amount_a).getD 0 < cfg.large_amount_threshold
      <;> by_cases hb : (parseU64 ev.amount_b).getD 0 < cfg.large_amount_threshold
      <;> simp [ha, hb] <;> omega
  · rw [largeAmountRule] at h
    split at h
    · exact Option.noConfusion h
    · injection h with h2
      rw [← h2]
  · by_cases hab : (parseU64 ev.amount_a).getD 0 < cfg.large_amount_threshold ∧
        (parseU64 ev.amount_b).getD 0 < cfg.large_amount_threshold
    · simp [largeAmountStep, largeAmountRule, hab]
    · simp only [largeAmountStep, largeAmountRule, if_neg hab]
      by_cases hmem : (st.emitted.contains ("large_amount:" ++ ev.offer_id
          ++ ":" ++ ev.signature ++ ":" ++ toString ev.slot)) = true
      · simp only [emitAlert, if_pos hmem]
      · simp only [emitAlert, if_neg hmem]
        rw [if_pos (by simp)]

/-- Default risk-engine thresholds: threshold 5 cancels, window 10 min
(600000 ms), large-amount 1e9. -/
def riskCfgDefault : RiskCfg :=
  { cancel_threshold := 5, window_ms := 600000
    large_amount_threshold := 1000000000 }

/-- A Cancelled event by maker mk (amounts far below the large-amount
threshold, so rule 1 stays silent). -/
def evCancel : NormalizedEvent :=
  { event_id := "sigC:0:0", event_type := .OfferCancelled
    cluster := "localnet", slot := 20, signature := "sigC"
    program_id := "prog", offer_id := "o1", maker := "mk", taker := none
    mint_a := "A", mint_b := "B", amount_a := "0", amount_b := "0"
    commitment := "finalized", ts_ingest_ms := 0 }

/-- Helper: rule 1 never fires on `evCancel` (amounts 0 < 1e9). -/
theorem largeAmountStep_evCancel (st : RiskState) (now : Nat) :
    largeAmountStep riskCfgDefault st evCancel now = st := rfl

/-- Helper: the event kind of `evCancel`. -/
theorem evCancel_type : evCancel.event_type = EventType.OfferCancelled := rfl

/-- Helper: the maker of `evCancel`. -/
theorem evCancel_maker : evCancel.maker = "mk" := rfl

/-- Helper: the offer id of `evCancel`. -/
theorem evCancel_offer : evCancel.offer_id = "o1" := rfl

/-- Helper: the cancel threshold of the default configuration. -/
theorem riskCfgDefault_threshold : riskCfgDefault.cancel_threshold = 5 := rfl

/-- Helper: the window of the default configuration. -/
theorem riskCfgDefault_window : riskCfgDefault.window_ms = 600000 := rfl

/-- The alert the frequent-cancel rule emits for the window anchored at
`t` (threshold 5, window 600000 ms), emitted at the fifth cancellation. -/
def freqAlertAt (t : Nat) : AlertEvent :=
  { alert_id := "freq_cancel:" ++ "mk" ++ ":" ++ toString t ++ ":" ++ toString 5
    rule_id := "freq_cancel", severity := "medium", maker := "mk"
    offer_id := some "o1", ts_ms := t + 240000
    details := AlertDetails.freqCancel 600000 5 5 }

/-- Claim C4: five cancellations by one maker at minutes t, t+1, t+2,
t+3, t+4 (window 10 min, threshold 5) publish the `freq_cancel` alert
exactly once, at the fifth cancellation, with the alert id derived from
(maker, window start t, threshold); a sixth cancellation inside the same
window anchor computes the same id and is suppressed by the
de-duplication set, so the id is never published twice. -/
theorem C4_freq_cancel_scenario (t : Nat) :
    (runRisk riskCfgDefault { cancels := [], emitted := [], published := [] }
        [(evCancel, t), (evCancel, t + 60000), (evCancel, t + 120000),
         (evCancel, t + 180000)]).published = [] ∧
    (runRisk riskCfgDefault { cancels := [], emitted := [], published := [] }
        [(evCancel, t), (evCancel, t + 60000), (evCancel, t + 120000),
         (evCancel, t + 180000), (evCancel, t + 240000)]).published =
      [freqAlertAt t] ∧
    (runRisk riskCfgDefault { cancels := [], emitted := [], published := [] }
        [(evCancel, t), (evCancel, t + 60000), (evCancel, t + 120000),
         (evCancel, t + 180000), (evCancel, t + 240000),
         (evCancel, t + 300000)]).published = [freqAlertAt t] := by
  have s1 : riskStep riskCfgDefault
      { cancels := [], emitted := [], published := [] } evCancel t =
      { cancels := [("mk", [t])], emitted := [], published := [] } := by
    simp [riskStep, largeAmountStep_evCancel, freqCancelStep, getDeque,
      putDeque, evictFront, emitAlert, List.find?, evCancel_type,
      evCancel_maker, evCancel_offer, riskCfgDefault_threshold,
      riskCfgDefault_window, Nat.add_sub_cancel_left, Nat.sub_self]
  have s2 : riskStep riskCfgDefault
      { cancels := [("mk", [t])], emitted := [], published := [] }
      evCancel (t + 60000) =
      { cancels := [("mk", [t, t + 60000])], emitted := []
        published := [] } := by
    simp [riskStep, largeAmountStep_evCancel, freqCancelStep, getDeque,
      putDeque, evictFront, emitAlert, List.find?, evCancel_type,
      evCancel_maker, evCancel_offer, riskCfgDefault_threshold,
      riskCfgDefault_window, Nat.add_sub_cancel_left, Nat.sub_self]
  have s3 : riskStep riskCfgDefault
      { cancels := [("mk", [t, t + 60000])], emitted := [], published := [] }
      evCancel (t + 120000) =
      { cancels := [("mk", [t, t + 60000, t + 120000])], emitted := []
        published := [] } := by
    simp [riskStep, largeAmountStep_evCancel, freqCancelStep, getDeque,
      putDeque, evictFront, emitAlert, List.find?, evCancel_type,
      evCancel_maker, evCancel_offer, riskCfgDefault_threshold,
      riskCfgDefault_window, Nat.add_sub_cancel_left, Nat.sub_self]
  have s4 : riskStep riskCfgDefault
      { cancels := [("mk", [t, t + 60000, t + 120000])], emitted := []
        published := [] }
      evCancel (t + 180000) =
      { cancels := [("mk", [t, t + 60000, t + 120000, t + 180000])]
        emitted := [], published := [] } := by
    simp [riskStep, largeAmountStep_evCancel, freqCancelStep, getDeque,
      putDeque, evictFront, emitAlert, List.find?, evCancel_type,
      evCancel_maker, evCancel_offer, riskCfgDefault_threshold,
      riskCfgDefault_window, Nat.add_sub_cancel_left, Nat.sub_self]
  have s5 : riskStep riskCfgDefault
      { cancels := [("mk", [t, t + 60000, t + 120000, t + 180000])]
        emitted := [], published := [] }
      evCancel (t + 240000) =
      { cancels :=
          [("mk", [t, t + 60000, t + 120000, t + 180000, t + 240000])]
        emitted := ["freq_cancel:mk:" ++ toString t ++ ":" ++ toString 5]
        published := [freqAlertAt t] } := by
    simp [riskStep, largeAmountStep_evCancel, freqCancelStep, getDeque,
      putDeque, evictFront, emitAlert, freqAlertAt, List.find?,
      evCancel_type, evCancel_maker, evCancel_offer,
      riskCfgDefault_threshold, riskCfgDefault_window,
      Nat.add_sub_cancel_left, Nat.sub_self]
  have s6 : riskStep riskCfgDefault
      { cancels :=
          [("mk", [t, t + 60000, t + 120000, t + 180000, t + 240000])]
        emitted := ["freq_cancel:mk:" ++ toString t ++ ":" ++ toString 5]
        published := [freqAlertAt t] }
      evCancel (t + 300000) =
      { cancels :=
          [("mk", [t, t + 60000, t + 120000, t + 180000, t + 240000,
            t + 300000])]
        emitted := ["freq_cancel:mk:" ++ toString t ++ ":" ++ toString 5]
        published := [freqAlertAt t] } := by
    simp [riskStep, largeAmountStep_evCancel, freqCancelStep, getDeque,
      putDeque, evictFront, emitAlert, freqAlertAt, List.find?,
      evCancel_type, evCancel_maker, evCancel_offer,
      riskCfgDefault_threshold, riskCfgDefault_window,
      Nat.add_sub_cancel_left, Nat.sub_self]
  refine ⟨?_, ?_, ?_⟩ <;>
    simp only [runRisk, s1, s2, s3, s4, s5, s6]

theorem C6_commit_semantics_witness :
    stepWriter (fun _ => none) (fun _ => true) (some "p") =
      { wrote := false, committed := true } ∧
    stepWriter (fun _ => some sampleNorm) (fun _ => false) (some "p") =
      { wrote := false, committed := false } ∧
    stepWriter (fun _ => some sampleNorm) (fun _ => true) (some "p") =
      { wrote := true, committed := true } :=
  ⟨(C6_commit_semantics (fun _ => none) (fun _ => true) "p").1 rfl,
   (C6_commit_semantics (fun _ => some sampleNorm) (fun _ => false) "p").2.1
     sampleNorm rfl rfl,
   (C6_commit_semantics (fun _ => some sampleNorm) (fun _ => true) "p").2.2
     sampleNorm rfl rfl⟩

/-- An event carrying `amount_a = 2000000000`, above the default
large-amount threshold of 1e9. -/
def evLarge : NormalizedEvent :=
  { evCreated10 with
    event_id := "sigL:0:0"
    signature := "sigL"
    amount_a := "2000000000" }

theorem C5_large_amount_witness :
    (largeAmountRule evLarge riskCfgDefault.large_amount_threshold 0).isSome =
      true ∧
    ((largeAmountStep riskCfgDefault
        { cancels := [], emitted := [], published := [] } evLarge
        0).published.map (fun a => a.alert_id)) = ["large_amount:42:sigL:10"] ∧
    (largeAmountStep riskCfgDefault
        (largeAmountStep riskCfgDefault
          { cancels := [], emitted := [], published := [] } evLarge 0)
        evLarge 7).published =
      (largeAmountStep riskCfgDefault
        { cancels := [], emitted := [], published := [] } evLarge 0).published :=
  ⟨by decide, by decide,
   (C5_large_amount evLarge riskCfgDefault 0 7
     { cancels := [], emitted := [], published := [] }).2.2⟩

end OrderFlow
